import Mathlib

/-!
Shallow embedding of `src/spirometer_final.py` (spirometry simulator core):
the predictor `calculate_spirometry`, the breath simulator `simulate_breath`,
and the classifier `interpret_results`.

Numeric values are modelled as exact rationals (ℚ).  The exponential function
`np.exp` is transcendental, so the simulator is parametrised by an arbitrary
function `e : ℚ → ℚ` applied exactly where `np.exp` appears in the source;
likewise the random draws (`np.random.rand()` twice, and the per-sample
`np.random.normal(0, 0.03)` stream) are passed in as explicit inputs
`u1 u2 : ℚ` and `noise : ℕ → ℚ`, matching the spec's injectable-random-source
reading of the code.
-/

namespace Spirometer

/-- The three clinical categories returned by `interpret_results`. -/
inductive Interpretation
  | normal
  | mildObstruction
  | severeObstruction
deriving DecidableEq, Repr

/-- Error kind for interpretation: division by a zero `fvc` measurement. -/
inductive SpiroError
  | divisionUndefined
deriving DecidableEq, Repr

/-- Python's `str.lower()` (the source's `sex.lower()`): lower-case every
character.  This is what `String.toLower` computes, written as a direct map
over the character list so that the kernel can evaluate it on literals
(`String.mapAux` inside `String.toLower` does not kernel-reduce). -/
def pyLower (s : String) : String := ⟨s.data.map Char.toLower⟩

/-- Pre-floor predicted `(fvc_pred, fev1_pred)` pair: lines 11-20 of
`calculate_spirometry` (sex-specific linear regression, then the smoker
multipliers), before the `max` floors of line 22. -/
def predPre (age height : ℚ) (sex : String) (smoker : Bool) : ℚ × ℚ :=
  let base : ℚ × ℚ :=
    if pyLower sex = "male" then
      (0.052 * height - 0.022 * age - 3.60, 0.041 * height - 0.018 * age - 2.69)
    else
      (0.041 * height - 0.018 * age - 2.69, 0.034 * height - 0.013 * age - 1.74)
  if smoker then (base.1 * 0.9, base.2 * 0.85) else base

/-- `calculate_spirometry(age, height, sex, smoker)`: the pre-floor pair with
the plausibility floors `max(fvc_pred, 1.5)`, `max(fev1_pred, 1.0)` applied. -/
def calculate_spirometry (age height : ℚ) (sex : String) (smoker : Bool) : ℚ × ℚ :=
  let p := predPre age height sex smoker
  (max p.1 1.5, max p.2 1.0)

/-- `interpret_results(fvc, fev1)`: classifies the ratio `fev1 / fvc`.
Division by zero is fallible in Python, so the embedding returns an
`Except`, signalling `divisionUndefined` exactly when `fvc = 0`. -/
def interpret_results (fvc fev1 : ℚ) : Except SpiroError Interpretation :=
  if fvc = 0 then .error .divisionUndefined
  else
    let ratio := fev1 / fvc
    if ratio ≥ 0.7 then .ok .normal
    else if ratio ≥ 0.5 then .ok .mildObstruction
    else .ok .severeObstruction

/-- `np.trapz(y, x)`: the composite trapezoidal rule
`Σ (x[k+1] - x[k]) * (y[k] + y[k+1]) / 2` over successive pairs. -/
def trapz : List ℚ → List ℚ → ℚ
  | y0 :: y1 :: ys, x0 :: x1 :: xs =>
      (x1 - x0) * (y0 + y1) / 2 + trapz (y1 :: ys) (x1 :: xs)
  | _, _ => 0

/-- `np.linspace(a, b, n)`: `n` evenly spaced points from `a` to `b`,
endpoints included, i.e. `a + (b - a) * i / (n - 1)` for `i < n`. -/
def linspace (a b : ℚ) (n : ℕ) : List ℚ :=
  (List.range n).map (fun i : ℕ => a + (b - a) * (i : ℚ) / ((n : ℚ) - 1))

/-- `total_points = 120` from `simulate_breath`. -/
def totalPoints : ℕ := 120

/-- `t = np.linspace(0, 6, total_points)`: the simulated time grid. -/
def breathTimes : List ℚ := linspace 0 6 totalPoints

/-- `peak_flow = fvc_pred * (0.8 + 0.4 * np.random.rand())`, with the uniform
draw passed in as `u1`. -/
def peakFlow (fvcPred u1 : ℚ) : ℚ := fvcPred * (0.8 + 0.4 * u1)

/-- `decay = 2.5 + np.random.rand()`, with the uniform draw passed in as `u2`. -/
def decayOf (u2 : ℚ) : ℚ := 2.5 + u2

/-- Sample `i` of the flow curve:
`flow[i] = (peak_flow * (i / total_points)) * np.exp(-decay * i / total_points)`
followed by `flow[i] += np.random.normal(0, 0.03)` (the normal draw passed in
as `noise i`, and `np.exp` as `e`). -/
def flowSample (peak decay : ℚ) (e : ℚ → ℚ) (noise : ℕ → ℚ) (n i : ℕ) : ℚ :=
  peak * ((i : ℚ) / n) * e (-decay * i / n) + noise i

/-- Closed form of sample `i` of the volume curve: `volume` starts as zeros and
for `i > 0` the loop sets `volume[i] = np.trapz(flow[:i+1], t[:i+1])`. -/
def volumeEntry (peak decay : ℚ) (e : ℚ → ℚ) (noise : ℕ → ℚ) (n : ℕ)
    (t : List ℚ) (i : ℕ) : ℚ :=
  if i = 0 then 0
  else trapz ((List.range (i + 1)).map (flowSample peak decay e noise n)) (t.take (i + 1))

/-- State threaded through the sample loop of `simulate_breath`: the flow and
volume samples written so far, and the `(t[i], flow[i], volume[i])` triples
pushed to the live numeric readout (`time_var`/`flow_var`/`volume_var`). -/
structure SimState where
  flow : List ℚ
  volume : List ℚ
  events : List (ℚ × ℚ × ℚ)

/-- One iteration of the `for i in range(total_points)` loop: append
`flow[i]`, append `volume[i]` (`np.trapz` of the prefix for `i > 0`, else the
preallocated `0`), and, when `i % 20 == 0`, push `(t[i], flow[i], volume[i])`
to the readout. -/
def simStep (peak decay : ℚ) (e : ℚ → ℚ) (noise : ℕ → ℚ) (n : ℕ) (t : List ℚ)
    (i : ℕ) (s : SimState) : SimState :=
  let fl := flowSample peak decay e noise n i
  let flow' := s.flow ++ [fl]
  let vol : ℚ := if i = 0 then 0 else trapz flow' (t.take (i + 1))
  let events' := if i % 20 = 0 then s.events ++ [(t.getD i 0, fl, vol)] else s.events
  ⟨flow', s.volume ++ [vol], events'⟩

/-- The loop of `simulate_breath` run for the first `k` sample indices. -/
def simLoop (peak decay : ℚ) (e : ℚ → ℚ) (noise : ℕ → ℚ) (n : ℕ) (t : List ℚ) :
    ℕ → SimState
  | 0 => ⟨[], [], []⟩
  | k + 1 => simStep peak decay e noise n t k (simLoop peak decay e noise n t k)

/-- Everything observable from one run of `simulate_breath`: the returned
`(fvc_measured, fev1_measured)`, the time/flow/volume series, and the
sequence of readout updates. -/
structure SimResult where
  fvcMeasured : ℚ
  fev1Measured : ℚ
  times : List ℚ
  flow : List ℚ
  volume : List ℚ
  events : List (ℚ × ℚ × ℚ)

/-- `simulate_breath(fvc_pred, fev1_pred, ...)` with the random draws and
`np.exp` passed explicitly.  `fev1_pred` is accepted but unused, as in the
source.  After the loop:
`fev1_measured = np.trapz(flow[:int(total_points/6)], t[:int(total_points/6)])`
and `fvc_measured = np.trapz(flow, t)`. -/
def simulate_breath (fvcPred fev1Pred u1 u2 : ℚ) (noise : ℕ → ℚ) (e : ℚ → ℚ) :
    SimResult :=
  let _ := fev1Pred
  let n := totalPoints
  let t := breathTimes
  let peak := peakFlow fvcPred u1
  let decay := decayOf u2
  let s := simLoop peak decay e noise n t n
  { fvcMeasured := trapz s.flow t
    fev1Measured := trapz (s.flow.take (n / 6)) (t.take (n / 6))
    times := t
    flow := s.flow
    volume := s.volume
    events := s.events }

/-! ### Loop characterisation lemmas -/

theorem simLoop_flow (peak decay : ℚ) (e : ℚ → ℚ) (noise : ℕ → ℚ) (n : ℕ)
    (t : List ℚ) (k : ℕ) :
    (simLoop peak decay e noise n t k).flow =
      (List.range k).map (flowSample peak decay e noise n) := by
  induction k with
  | zero => rfl
  | succ k ih =>
      simp [simLoop, simStep, List.range_succ, ih]

theorem simLoop_volume (peak decay : ℚ) (e : ℚ → ℚ) (noise : ℕ → ℚ) (n : ℕ)
    (t : List ℚ) (k : ℕ) :
    (simLoop peak decay e noise n t k).volume =
      (List.range k).map (volumeEntry peak decay e noise n t) := by
  induction k with
  | zero => rfl
  | succ k ih =>
      simp only [simLoop, simStep, List.range_succ, List.map_append, List.map_cons,
        List.map_nil, ih, simLoop_flow]
      congr 1
      simp only [volumeEntry]
      rcases Nat.eq_zero_or_pos k with hk | hk
      · simp [hk]
      · have hk' : k ≠ 0 := Nat.pos_iff_ne_zero.mp hk
        simp [hk', List.range_succ]

theorem simLoop_events (peak decay : ℚ) (e : ℚ → ℚ) (noise : ℕ → ℚ) (n : ℕ)
    (t : List ℚ) (k : ℕ) :
    (simLoop peak decay e noise n t k).events =
      ((List.range k).filter (fun i => i % 20 == 0)).map
        (fun i => (t.getD i 0, flowSample peak decay e noise n i,
                   volumeEntry peak decay e noise n t i)) := by
  induction k with
  | zero => rfl
  | succ k ih =>
      simp only [simLoop, simStep, ih, simLoop_flow, List.range_succ,
        List.filter_append, List.map_append]
      by_cases hk : k % 20 = 0
      · rw [if_pos hk]
        have hk2 : (k % 20 == 0) = true := by simpa using hk
        simp only [List.filter_cons, hk2, List.filter_nil, List.map_cons, List.map_nil]
        congr 2
        simp only [volumeEntry]
        rcases Nat.eq_zero_or_pos k with h0 | h0
        · simp [h0]
        · have h0' : k ≠ 0 := Nat.pos_iff_ne_zero.mp h0
          simp [h0', List.range_succ]
      · rw [if_neg hk]
        have hk2 : (k % 20 == 0) = false := by simpa using hk
        simp [List.filter_cons, hk2]

/-- The trapezoidal rule over a single sample is 0 (no pair to integrate). -/
theorem trapz_single (y : ℚ) (xs : List ℚ) : trapz [y] xs = 0 := by
  cases xs <;> rfl

/-! ### Claims -/

/-- C1: for every pair with `fvcMeasured` nonzero and `ratio = fev1 / fvc`,
`interpret_results` returns Normal iff `ratio ≥ 0.70`, MildObstruction iff
`0.50 ≤ ratio < 0.70`, and SevereObstruction iff `ratio < 0.50` (both lower
bounds inclusive). -/
theorem C1_interpret_classification (fvc fev1 : ℚ) (h : fvc ≠ 0) :
    (interpret_results fvc fev1 = .ok .normal ↔ 0.7 ≤ fev1 / fvc) ∧
    (interpret_results fvc fev1 = .ok .mildObstruction ↔
      0.5 ≤ fev1 / fvc ∧ fev1 / fvc < 0.7) ∧
    (interpret_results fvc fev1 = .ok .severeObstruction ↔ fev1 / fvc < 0.5) := by
  unfold interpret_results
  rw [if_neg h]
  simp only [ge_iff_le]
  split_ifs with h1 h2
  · refine ⟨iff_of_true rfl h1, iff_of_false (by simp) ?_, iff_of_false (by simp) ?_⟩
    · rintro ⟨-, hlt⟩; linarith
    · intro hlt; linarith
  · refine ⟨iff_of_false (by simp) h1, iff_of_true rfl ⟨h2, not_le.mp h1⟩,
      iff_of_false (by simp) ?_⟩
    intro hlt; linarith
  · refine ⟨iff_of_false (by simp) ?_, iff_of_false (by simp) ?_,
      iff_of_true rfl (not_le.mp h2)⟩
    · intro hge; exact h1 (by linarith)
    · rintro ⟨hge, -⟩; exact h2 hge

/-- Witness for C1 at `fvc = 10`, `fev1 = 7` (ratio exactly 0.70). -/
theorem C1_interpret_classification_witness :
    (interpret_results 10 7 = .ok .normal ↔ (0.7 : ℚ) ≤ 7 / 10) ∧
    (interpret_results 10 7 = .ok .mildObstruction ↔
      (0.5 : ℚ) ≤ 7 / 10 ∧ (7 : ℚ) / 10 < 0.7) ∧
    (interpret_results 10 7 = .ok .severeObstruction ↔ (7 : ℚ) / 10 < 0.5) :=
  C1_interpret_classification 10 7 (by norm_num)

/-- C2 counterexample: at age 30, height 170, Male, non-smoker the predictor
returns `(4.58, 3.74)` (since `0.052·170 − 0.022·30 − 3.60 = 4.58` and
`0.041·170 − 0.018·30 − 2.69 = 3.74`), not the claimed `(3.92, 3.18)`. -/
theorem C2_predict_example_counterexample :
    calculate_spirometry 30 170 "Male" false ≠ (3.92, 3.18) := by
  have h : calculate_spirometry 30 170 "Male" false = (4.58, 3.74) := by
    simp only [calculate_spirometry, predPre]
    rw [if_pos (by decide : pyLower "Male" = "male")]
    norm_num [Prod.ext_iff, max_def]
  rw [h]
  norm_num [Prod.ext_iff]

/-- C2 amended: `predict` computes the stated sex-specific regressions before
the smoker adjustment and floors, but the worked example at age 30, height
170, Male, non-smoker yields `fvcPredicted = 4.58` and `fev1Predicted = 3.74`
(the claimed 3.92 and 3.18 are arithmetic slips). -/
theorem C2_predict_formulas_and_example :
    (∀ age height : ℚ, predPre age height "Male" false =
      (0.052 * height - 0.022 * age - 3.60, 0.041 * height - 0.018 * age - 2.69)) ∧
    (∀ age height : ℚ, predPre age height "Female" false =
      (0.041 * height - 0.018 * age - 2.69, 0.034 * height - 0.013 * age - 1.74)) ∧
    calculate_spirometry 30 170 "Male" false = (4.58, 3.74) := by
  refine ⟨fun age height => ?_, fun age height => ?_, ?_⟩
  · simp only [predPre]
    rw [if_pos (by decide : pyLower "Male" = "male")]
    simp
  · simp only [predPre]
    rw [if_neg (by decide : ¬ pyLower "Female" = "male")]
    simp
  · simp only [calculate_spirometry, predPre]
    rw [if_pos (by decide : pyLower "Male" = "male")]
    norm_num [Prod.ext_iff, max_def]

/-- C6: `interpret_results` signals `divisionUndefined` iff `fvcMeasured = 0`,
for every `fev1Measured`; for nonzero `fvcMeasured` it returns a
classification. -/
theorem C6_interpret_division_error (fvc fev1 : ℚ) :
    (interpret_results fvc fev1 = .error .divisionUndefined ↔ fvc = 0) ∧
    (fvc ≠ 0 → ∃ c, interpret_results fvc fev1 = .ok c) := by
  unfold interpret_results
  by_cases h : fvc = 0
  · rw [if_pos h]
    exact ⟨iff_of_true rfl h, fun hn => absurd h hn⟩
  · rw [if_neg h]
    simp only [ge_iff_le]
    refine ⟨iff_of_false ?_ h, fun _ => ?_⟩
    · split_ifs <;> simp
    · split_ifs <;> exact ⟨_, rfl⟩

/-- Witness for C6 at `fvc = 10`, `fev1 = 7`, with the nonzero hypothesis
discharged. -/
theorem C6_interpret_division_error_witness :
    (interpret_results 10 7 = .error .divisionUndefined ↔ (10 : ℚ) = 0) ∧
    (∃ c, interpret_results 10 7 = .ok c) :=
  ⟨(C6_interpret_division_error 10 7).1,
   (C6_interpret_division_error 10 7).2 (by norm_num)⟩

/-- C7: for every profile, the predictor returns `fvcPredicted ≥ 1.5` and
`fev1Predicted ≥ 1.0` (and is a total function: it always returns a value). -/
theorem C7_predict_floors (age height : ℚ) (sex : String) (smoker : Bool) :
    1.5 ≤ (calculate_spirometry age height sex smoker).1 ∧
    1.0 ≤ (calculate_spirometry age height sex smoker).2 :=
  ⟨le_max_right _ _, le_max_right _ _⟩

/-- C8: for every two profiles identical except for `isSmoker`, the smoker's
pre-floor predictions are exactly 0.90× the non-smoker's fvc and 0.85× the
non-smoker's fev1 (unconditionally), hence strictly lower whenever the
non-smoker pre-floor value is positive. -/
theorem C8_smoker_multipliers (age height : ℚ) (sex : String) :
    predPre age height sex true =
      ((predPre age height sex false).1 * 0.9,
       (predPre age height sex false).2 * 0.85) ∧
    (0 < (predPre age height sex false).1 →
      (predPre age height sex true).1 < (predPre age height sex false).1) ∧
    (0 < (predPre age height sex false).2 →
      (predPre age height sex true).2 < (predPre age height sex false).2) := by
  have hmk : predPre age height sex true =
      ((predPre age height sex false).1 * 0.9,
       (predPre age height sex false).2 * 0.85) := by
    unfold predPre
    by_cases hsx : pyLower sex = "male" <;> simp [hsx]
  refine ⟨hmk, fun hf => ?_, fun he => ?_⟩
  · rw [hmk]; dsimp only; linarith
  · rw [hmk]; dsimp only; linarith

/-- Witness for C8 at age 30, height 170, Male (pre-floor values 4.58 and
3.74, both positive). -/
theorem C8_smoker_multipliers_witness :
    predPre 30 170 "Male" true =
      ((predPre 30 170 "Male" false).1 * 0.9,
       (predPre 30 170 "Male" false).2 * 0.85) ∧
    (predPre 30 170 "Male" true).1 < (predPre 30 170 "Male" false).1 ∧
    (predPre 30 170 "Male" true).2 < (predPre 30 170 "Male" false).2 :=
  ⟨(C8_smoker_multipliers 30 170 "Male").1,
   (C8_smoker_multipliers 30 170 "Male").2.1
     (by simp only [predPre]
         rw [if_pos (by decide : pyLower "Male" = "male")]
         norm_num),
   (C8_smoker_multipliers 30 170 "Male").2.2
     (by simp only [predPre]
         rw [if_pos (by decide : pyLower "Male" = "male")]
         norm_num)⟩

/-- C10: any sex string whose lower-cased form is not "male" — including
"Female" and arbitrary unexpected strings — is given the female regression
coefficients; the predictor rejects nothing. -/
theorem C10_sex_fallback_female (age height : ℚ) (sex : String) (smoker : Bool)
    (h : pyLower sex ≠ "male") :
    calculate_spirometry age height sex smoker =
      calculate_spirometry age height "Female" smoker ∧
    predPre age height sex false =
      (0.041 * height - 0.018 * age - 2.69, 0.034 * height - 0.013 * age - 1.74) := by
  constructor
  · simp only [calculate_spirometry, predPre, if_neg h,
      if_neg (by decide : ¬ pyLower "Female" = "male")]
  · simp only [predPre, if_neg h]
    simp

/-- C3: `fev1Measured` is the trapezoidal integral of the first
`⌊sampleCount/6⌋ = 20` flow samples against their time values, and
`fvcMeasured` the trapezoidal integral of the full flow series over the full
time series. -/
theorem C3_measured_integrals (fvcPred fev1Pred u1 u2 : ℚ) (noise : ℕ → ℚ)
    (e : ℚ → ℚ) :
    (simulate_breath fvcPred fev1Pred u1 u2 noise e).fev1Measured =
      trapz (((List.range totalPoints).map
          (flowSample (peakFlow fvcPred u1) (decayOf u2) e noise totalPoints)).take
            (totalPoints / 6))
        (breathTimes.take (totalPoints / 6)) ∧
    (simulate_breath fvcPred fev1Pred u1 u2 noise e).fvcMeasured =
      trapz ((List.range totalPoints).map
          (flowSample (peakFlow fvcPred u1) (decayOf u2) e noise totalPoints))
        breathTimes := by
  constructor <;> simp [simulate_breath, simLoop_flow]

/-- C4 counterexample: the time grid is `np.linspace(0, 6, 120)`, which is
endpoint-inclusive, so the last sample's time is 6, not the claimed
`(119/120)·6 = 5.95`. -/
theorem C4_time_grid_counterexample :
    breathTimes.getD 119 0 ≠ (119 : ℚ) / 120 * 6 := by
  have h : breathTimes.getD 119 0 = 6 := by
    unfold breathTimes linspace totalPoints
    rw [List.getD_eq_getElem?_getD, List.getElem?_map,
      List.getElem?_range (by norm_num : (119 : ℕ) < 120)]
    simp only [Option.map_some', Option.getD_some]
    norm_num
  rw [h]
  norm_num

/-- C4 amended: for every sample index `i < 120` the time value is
`t[i] = i · durationSec / (sampleCount − 1) = 6i/119` (endpoint-inclusive
grid), so the last sample's time is 6.0 seconds, not 5.95. -/
theorem C4_time_grid_values (i : ℕ) (h : i < 120) :
    breathTimes.getD i 0 = 6 * i / 119 := by
  unfold breathTimes linspace totalPoints
  rw [List.getD_eq_getElem?_getD, List.getElem?_map, List.getElem?_range h]
  simp only [Option.map_some', Option.getD_some]
  norm_num

/-- Witness for C4's amended claim at the last index `i = 119`. -/
theorem C4_time_grid_values_witness :
    breathTimes.getD 119 0 = 6 * ((119 : ℕ) : ℚ) / 119 :=
  C4_time_grid_values 119 (by norm_num)

/-- C5: every run's trace has exactly 120 flow and volume samples, the first
volume sample is 0, each `volume[i]` is the trapezoidal integral of
`flow[0..i]` over `t[0..i]`, and `flow[i]` is
`peakFlow · (i/sampleCount) · exp(−decay·i/sampleCount) + noise` with
`peakFlow = fvcPredicted · (0.8 + 0.4·U)` and `decay = 2.5 + U2` drawn once
per run. -/
theorem C5_breath_trace_invariants (fvcPred fev1Pred u1 u2 : ℚ) (noise : ℕ → ℚ)
    (e : ℚ → ℚ) (i : ℕ) (h : i < totalPoints) :
    (simulate_breath fvcPred fev1Pred u1 u2 noise e).flow.length = totalPoints ∧
    (simulate_breath fvcPred fev1Pred u1 u2 noise e).volume.length = totalPoints ∧
    (simulate_breath fvcPred fev1Pred u1 u2 noise e).volume.getD 0 0 = 0 ∧
    (simulate_breath fvcPred fev1Pred u1 u2 noise e).volume.getD i 0 =
      trapz ((simulate_breath fvcPred fev1Pred u1 u2 noise e).flow.take (i + 1))
        (breathTimes.take (i + 1)) ∧
    (simulate_breath fvcPred fev1Pred u1 u2 noise e).flow.getD i 0 =
      fvcPred * (0.8 + 0.4 * u1) * ((i : ℚ) / totalPoints) *
        e (-(2.5 + u2) * i / totalPoints) + noise i := by
  have hflow : (simulate_breath fvcPred fev1Pred u1 u2 noise e).flow =
      (List.range totalPoints).map
        (flowSample (peakFlow fvcPred u1) (decayOf u2) e noise totalPoints) := by
    simp [simulate_breath, simLoop_flow]
  have hvol : (simulate_breath fvcPred fev1Pred u1 u2 noise e).volume =
      (List.range totalPoints).map
        (volumeEntry (peakFlow fvcPred u1) (decayOf u2) e noise totalPoints
          breathTimes) := by
    simp [simulate_breath, simLoop_volume]
  refine ⟨?_, ?_, ?_, ?_, ?_⟩
  · rw [hflow]; simp
  · rw [hvol]; simp
  · rw [hvol, List.getD_eq_getElem?_getD, List.getElem?_map,
      List.getElem?_range (by decide : (0 : ℕ) < totalPoints)]
    simp [volumeEntry]
  · rw [hvol, hflow, List.getD_eq_getElem?_getD, List.getElem?_map,
      List.getElem?_range h]
    simp only [Option.map_some', Option.getD_some]
    rw [← List.map_take, List.take_range,
      min_eq_left (by omega : i + 1 ≤ totalPoints)]
    by_cases h0 : i = 0
    · subst h0
      simp [volumeEntry, List.range_succ, trapz_single]
    · simp [volumeEntry, h0]
  · rw [hflow, List.getD_eq_getElem?_getD, List.getElem?_map,
      List.getElem?_range h]
    simp only [Option.map_some', Option.getD_some]
    simp [flowSample, peakFlow, decayOf]

/-- Witness for C5 at a fully concrete run (`fvcPred = 2`, zero uniform draws,
zero noise, constant-one exponential) and index `i = 3`. -/
theorem C5_breath_trace_invariants_witness :
    (simulate_breath 2 1 0 0 (fun _ => 0) (fun _ => 1)).flow.length = totalPoints ∧
    (simulate_breath 2 1 0 0 (fun _ => 0) (fun _ => 1)).volume.length = totalPoints ∧
    (simulate_breath 2 1 0 0 (fun _ => 0) (fun _ => 1)).volume.getD 0 0 = 0 ∧
    (simulate_breath 2 1 0 0 (fun _ => 0) (fun _ => 1)).volume.getD 3 0 =
      trapz ((simulate_breath 2 1 0 0 (fun _ => 0) (fun _ => 1)).flow.take (3 + 1))
        (breathTimes.take (3 + 1)) ∧
    (simulate_breath 2 1 0 0 (fun _ => 0) (fun _ => 1)).flow.getD 3 0 =
      2 * (0.8 + 0.4 * 0) * (((3 : ℕ) : ℚ) / totalPoints) *
        (fun _ => (1 : ℚ)) (-(2.5 + 0) * ((3 : ℕ) : ℚ) / totalPoints) +
        (fun _ => (0 : ℚ)) 3 :=
  C5_breath_trace_invariants 2 1 0 0 (fun _ => 0) (fun _ => 1) 3 (by decide)

/-- C9 counterexample: on a concrete run the live-readout callback fires only
6 times, not once per generated sample (`sampleCount = 120` times). -/
theorem C9_callback_count_counterexample :
    (simulate_breath 2 1 0 0 (fun _ => 0) (fun _ => 1)).events.length ≠
      totalPoints := by
  have h : (simulate_breath 2 1 0 0 (fun _ => 0) (fun _ => 1)).events.length =
      ((List.range totalPoints).filter (fun i => i % 20 == 0)).length := by
    simp [simulate_breath, simLoop_events]
  rw [h]
  decide

/-- C9 amended: the readout callback fires exactly at the sample indices
divisible by 20, in index order, each time with that sample's
`(t[i], flow[i], volume[i])` — 6 invocations per 120-sample run, not one per
sample. -/
theorem C9_callback_events (fvcPred fev1Pred u1 u2 : ℚ) (noise : ℕ → ℚ)
    (e : ℚ → ℚ) :
    (simulate_breath fvcPred fev1Pred u1 u2 noise e).events =
      ((List.range totalPoints).filter (fun i => i % 20 == 0)).map
        (fun i => (breathTimes.getD i 0,
          flowSample (peakFlow fvcPred u1) (decayOf u2) e noise totalPoints i,
          volumeEntry (peakFlow fvcPred u1) (decayOf u2) e noise totalPoints
            breathTimes i)) ∧
    (simulate_breath fvcPred fev1Pred u1 u2 noise e).events.length = 6 := by
  have h1 : (simulate_breath fvcPred fev1Pred u1 u2 noise e).events =
      ((List.range totalPoints).filter (fun i => i % 20 == 0)).map
        (fun i => (breathTimes.getD i 0,
          flowSample (peakFlow fvcPred u1) (decayOf u2) e noise totalPoints i,
          volumeEntry (peakFlow fvcPred u1) (decayOf u2) e noise totalPoints
            breathTimes i)) := by
    simp [simulate_breath, simLoop_events]
  refine ⟨h1, ?_⟩
  rw [h1, List.length_map]
  decide

/-- Witness for C10 at the unexpected sex string "Unicorn". -/
theorem C10_sex_fallback_female_witness :
    calculate_spirometry 30 170 "Unicorn" false =
      calculate_spirometry 30 170 "Female" false ∧
    predPre 30 170 "Unicorn" false =
      (0.041 * 170 - 0.018 * 30 - 2.69, 0.034 * 170 - 0.013 * 30 - 1.74) :=
  C10_sex_fallback_female 30 170 "Unicorn" false (by decide)

end Spirometer
